import Mathlib

/-!
Verification development for the tote image-salvage operator.

Go strings are modelled as `List Char`; machine integers that can only hold
non-negative byte counts are modelled as `Int` with the comparisons the source
performs.  Each definition is a shallow embedding of a function of the
repository; external effects (Kubernetes API, gRPC, containerd) are modelled
as explicit environment records, and side effects as traces of actions.
-/

namespace Tote

/-! ## Digest resolver (internal/resolver/resolver.go) -/

/-- The seven characters of the Go literal "sha256:". -/
def shaMarker : List Char := ['s', 'h', 'a', '2', '5', '6', ':']

/-- Embeds `strings.LastIndex(image, "@")` followed by `image[idx+1:]`:
returns the suffix after the last '@' when one exists. -/
def afterLastAt : List Char → Option (List Char)
  | [] => none
  | c :: cs =>
    match afterLastAt cs with
    | some d => some d
    | none => if c = '@' then some cs else none

/-- Result of `Resolve` (resolver.go `Resolution`). -/
structure Resolution where
  original : List Char
  digest : List Char
  actionable : Bool
deriving DecidableEq

/-- Embeds resolver.go `Resolve`: take the suffix after the last '@'; it is a
digest iff it starts with "sha256:" and has total length 71. -/
def Resolve (image : List Char) : Resolution :=
  match afterLastAt image with
  | none => { original := image, digest := [], actionable := false }
  | some d =>
    if shaMarker.isPrefixOf d && d.length == 71 then
      { original := image, digest := d, actionable := true }
    else
      { original := image, digest := [], actionable := false }

/-- Hexadecimal digit test, used only to state the claim. -/
def isHexChar (c : Char) : Bool :=
  (('0' ≤ c) && (c ≤ '9')) || (('a' ≤ c) && (c ≤ 'f')) || (('A' ≤ c) && (c ≤ 'F'))

/-- The claim's test on a candidate digest segment: "sha256:" followed by
exactly 64 hexadecimal characters. -/
def claimDigestSeg (d : List Char) : Bool :=
  shaMarker.isPrefixOf d && d.length == 71 && (d.drop 7).all isHexChar

/-- The claim's condition on a whole reference: it contains '@' followed by
"sha256:" followed by exactly 64 hexadecimal characters as its suffix. -/
def claimActionable : List Char → Bool
  | [] => false
  | c :: cs => ((c = '@') && claimDigestSeg cs) || claimActionable cs

/-- The condition the code actually enforces, phrased over the reference:
some '@' with no later '@' is followed by "sha256:" plus exactly 64 further
characters (hexadecimality is not checked). -/
def codeActionable : List Char → Bool
  | [] => false
  | c :: cs =>
    ((c = '@') && !(cs.contains '@') && (shaMarker.isPrefixOf cs && cs.length == 71))
      || codeActionable cs

/-! ## Failure detector (src/unnamed/part_013, package detector) -/

/-- A container of the pod spec: name and image reference. -/
structure ContainerSpec where
  name : List Char
  image : List Char
deriving DecidableEq

/-- The `Waiting` part of a container state. -/
structure WaitingState where
  reason : List Char
  message : List Char
deriving DecidableEq

/-- A container status entry.  The kubelet also reports an image string here;
the detector deliberately ignores it and reads the spec instead. -/
structure ContainerStatus where
  name : List Char
  image : List Char
  waiting : Option WaitingState
deriving DecidableEq

/-- An owner reference of a workload. -/
structure OwnerReference where
  kind : List Char
  name : List Char
deriving DecidableEq

/-- The pod fields the embedded components read. -/
structure Pod where
  name : List Char
  ns : List Char
  nodeName : List Char
  annots : List (List Char × List Char)
  ownerRefs : List OwnerReference
  containers : List ContainerSpec
  initContainers : List ContainerSpec
  containerStatuses : List ContainerStatus
  initContainerStatuses : List ContainerStatus
deriving DecidableEq

/-- Go map read with zero-value default: value for the key, or "" if absent. -/
def lookupAnnot (annots : List (List Char × List Char)) (key : List Char) : List Char :=
  match annots.find? (fun p => p.1 == key) with
  | some p => p.2
  | none => []

/-- A detected image failure (detector `Failure`). -/
structure Failure where
  containerName : List Char
  image : List Char
  reason : List Char
  message : List Char
  corruptImage : Bool
deriving DecidableEq

/-- Embeds `strings.Contains hay needle`. -/
def containsB : List Char → List Char → Bool
  | [], needle => needle.isEmpty
  | c :: t, needle => needle.isPrefixOf (c :: t) || containsB t needle

/-- The `imagePullFailureReasons` set of the detector. -/
def pullFailureReason (r : List Char) : Bool :=
  r == "ImagePullBackOff".toList || r == "ErrImagePull".toList

/-- Embeds detector `isCorruptImageMessage`. -/
def isCorruptImageMessage (msg : List Char) : Bool :=
  containsB msg ("failed to resolve rootfs".toList) &&
  containsB msg ("content digest".toList) &&
  containsB msg ("not found".toList)

/-- The `specImage` map of `detectInStatuses`: Go map insertion makes the last
spec with a given name win; lookup of a missing name gives "". -/
def specImage (specs : List ContainerSpec) (n : List Char) : List Char :=
  match specs.reverse.find? (fun c => c.name == n) with
  | some c => c.image
  | none => []

/-- Embeds detector `detectInStatuses`: one failure per waiting container with
a pull-failure reason, or a CreateContainerError whose message indicates
missing content blobs; the image string comes from the spec map. -/
def detectInStatuses (specs : List ContainerSpec) : List ContainerStatus → List Failure
  | [] => []
  | cs :: rest =>
    (match cs.waiting with
     | none => []
     | some w =>
       if pullFailureReason w.reason then
         [{ containerName := cs.name, image := specImage specs cs.name,
            reason := w.reason, message := w.message, corruptImage := false }]
       else if (w.reason == "CreateContainerError".toList) && isCorruptImageMessage w.message then
         [{ containerName := cs.name, image := specImage specs cs.name,
            reason := w.reason, message := w.message, corruptImage := true }]
       else []) ++ detectInStatuses specs rest

/-- Embeds detector `Detect`: main container statuses first, then init
container statuses. -/
def Detect (pod : Pod) : List Failure :=
  detectInStatuses pod.containers pod.containerStatuses
    ++ detectInStatuses pod.initContainers pod.initContainerStatuses

/-- The claim's per-container rule, written from the specification text: a
waiting container whose reason is ImagePullBackOff or ErrImagePull yields a
failure with corruptImage = false; a CreateContainerError whose message
contains the three substrings yields corruptImage = true; everything else is
ignored; the image is taken from the pod spec. -/
def claimFailureFor (specs : List ContainerSpec) (cs : ContainerStatus) : Option Failure :=
  match cs.waiting with
  | none => none
  | some w =>
    if w.reason == "ImagePullBackOff".toList || w.reason == "ErrImagePull".toList then
      some { containerName := cs.name, image := specImage specs cs.name,
             reason := w.reason, message := w.message, corruptImage := false }
    else if (w.reason == "CreateContainerError".toList) &&
        (containsB w.message ("failed to resolve rootfs".toList) &&
         containsB w.message ("content digest".toList) &&
         containsB w.message ("not found".toList)) then
      some { containerName := cs.name, image := specImage specs cs.name,
             reason := w.reason, message := w.message, corruptImage := true }
    else none

/-- The claim's detector, written from the specification text: main-container
failures precede init-container failures, in status-list order. -/
def claimDetect (pod : Pod) : List Failure :=
  pod.containerStatuses.filterMap (claimFailureFor pod.containers)
    ++ pod.initContainerStatuses.filterMap (claimFailureFor pod.initContainers)

/-! ## Session store (internal/session/session.go) -/

/-- A transfer-authorization session; the expiry instant is a `Nat` tick. -/
structure Sess where
  token : List Char
  digest : List Char
  sourceNode : List Char
  targetNode : List Char
  expiresAt : Nat
deriving DecidableEq

/-- Go map read `s.sessions[token]`. -/
def lookupSession (store : List Sess) (token : List Char) : Option Sess :=
  store.find? (fun s => s.token == token)

/-- Embeds session.go `Validate` over an explicit clock `now`: the session is
returned iff present and `now` is not strictly after its expiry; an expired
entry is deleted on access.  Returns the updated store and the result. -/
def Validate (store : List Sess) (now : Nat) (token : List Char) :
    List Sess × Option Sess :=
  match lookupSession store token with
  | none => (store, none)
  | some s =>
    if s.expiresAt < now then
      (store.filter (fun x => !(x.token == token)), none)
    else
      (store, some s)

/-! ## Agent ExportImage (internal/agent/containerd.go, gRPC server) -/

/-- One streamed frame of image bytes. -/
inductive StreamAct where
  | sendChunk (data : List Nat)
deriving DecidableEq

/-- Behaviour of the local `Store.Export` producer: the chunks the pipe
yields (already framed), then an optional producer error. -/
structure ExportRun where
  chunks : List (List Nat)
  producerErr : Option (List Char)
deriving DecidableEq

/-- Embeds the agent's `ExportImage`: reject an empty token, validate the
session, then stream the export through the pipe in frames; a producer error
surfaces after the produced frames were sent.  Returns the updated session
store, the stream trace and the RPC error. -/
def ExportImage (store : List Sess) (now : Nat) (token : List Char) (run : ExportRun) :
    List Sess × List StreamAct × Option (List Char) :=
  if token == [] then
    (store, [], some ("session_token is required".toList))
  else
    let v := Validate store now token
    match v.2 with
    | none => (v.1, [], some ("invalid or expired session token".toList))
    | some _ =>
      (v.1, run.chunks.map StreamAct.sendChunk,
        match run.producerErr with
        | some e => some (("export: ".toList) ++ e)
        | none => none)

/-! ## Node inventory (internal/inventory/inventory.go) -/

/-- A node as the reconciler sees it: name plus `Status.Images`, each entry a
group of image names. -/
structure NodeInfo where
  name : List Char
  images : List (List (List Char))
deriving DecidableEq

/-- Embeds inventory `nodeHasDigest`: some reported name ends in "@digest". -/
def nodeHasDigest (node : NodeInfo) (digest : List Char) : Bool :=
  node.images.any (fun grp => grp.any (fun nm => ('@' :: digest).isSuffixOf nm))

/-- Embeds inventory `FindNodes` over an in-memory node list (the fake-client
List cannot fail, so the error branch of the Go code is unreachable here). -/
def FindNodes (nodes : List NodeInfo) (digest : List Char) : List (List Char) :=
  (nodes.filter (fun n => nodeHasDigest n digest)).map (fun n => n.name)

/-- The suffix of `s` after the first character of the last occurrence of
`seg`; embeds `strings.LastIndex(name, seg)` followed by `name[idx+1:]`. -/
def afterLastOcc (seg : List Char) : List Char → Option (List Char)
  | [] => none
  | c :: t =>
    match afterLastOcc seg t with
    | some r => some r
    | none => if seg.isPrefixOf (c :: t) then some t else none

/-- The digest a single image name contributes in `nodeDigestForTag`:
the part after the '@' of the last "@sha256:" occurrence, when 71 long. -/
def digestOfName (nm : List Char) : List Char :=
  match afterLastOcc ('@' :: shaMarker) nm with
  | some d => if d.length == 71 then d else []
  | none => []

/-- The digest variable after the inner loop of `nodeDigestForTag`: the last
name in the group that produced a valid digest wins. -/
def groupDigest (names : List (List Char)) : List Char :=
  match names.reverse.find? (fun nm => !(digestOfName nm == [])) with
  | some nm => digestOfName nm
  | none => []

/-- Embeds inventory `nodeDigestForTag`: first group that contains the tag
and has a sibling digest-form name. -/
def nodeDigestForTag (node : NodeInfo) (imageTag : List Char) : List Char :=
  match node.images.find? (fun grp => grp.contains imageTag && !(groupDigest grp == [])) with
  | some grp => groupDigest grp
  | none => []

/-- Embeds inventory `FindNodesByTag`: the digest of the first matching node
becomes authoritative; all matching node names are collected. -/
def FindNodesByTag (nodes : List NodeInfo) (imageTag : List Char) :
    List Char × List (List Char) :=
  let matching := nodes.filter (fun n => !(nodeDigestForTag n imageTag == []))
  (match matching with
   | [] => []
   | n :: _ => nodeDigestForTag n imageTag,
   matching.map (fun n => n.name))

/-! ## Orchestrator (src/unnamed/part_003, package transfer) -/

/-- Orchestrator configuration (the fields `Salvage` reads). -/
structure Orchestrator where
  maxImageSize : Int
  backupRegistry : List Char
  notifierPresent : Bool

/-- The external world one `Salvage` call interacts with: semaphore state,
endpoint resolution, the two agent RPCs, the minted session token, and the
outcomes of record creation, backup push and pod deletion.  Record-creation
and deletion errors are fields even though `Salvage` only logs them. -/
structure AgentWorld where
  semaphoreFull : Bool
  endpointFor : List Char → Except (List Char) (List Char)
  prepareExport : List Char → List Char → Except (List Char) Int
  importFrom : List Char → List Char → List Char → Except (List Char) Unit
  sessionToken : List Char
  recordCreateErr : Option (List Char)
  backupRef : Except (List Char) (List Char)
  creds : Except (List Char) (List Char × List Char)
  push : Except (List Char) Unit
  deleteErr : Option (List Char)

/-- Side effects of the orchestrator and reconciler, in program order. -/
inductive OrchAct where
  | metricAttempt
  | resolveEndpoint (node : List Char)
  | sessionCreate (digest sourceNode targetNode : List Char)
  | sessionDelete (token : List Char)
  | semRelease
  | prepareExport (endpoint token digest : List Char)
  | metricFailure
  | eventSalvageFailed (reason : List Char)
  | notifyCall (typ : List Char)
  | importFrom (endpoint token digest sourceEndpoint : List Char)
  | metricSuccess
  | metricDuration
  | eventSalvaged (digest sourceNode targetNode : List Char)
  | recordCreate (name podName digest imageRef phase errMsg : List Char)
  | metricPushAttempt
  | eventPushFailed (targetRef err : List Char)
  | metricPushFailure
  | metricPushSuccess
  | metricPushDuration
  | eventPushed (targetRef : List Char)
  | pushImage (endpoint digest targetRef user pass : List Char)
  | deletePod (podName : List Char)
  | metricDetected
  | metricCorruptImage
  | eventCorruptImage (image node : List Char)
  | removeImage (node image : List Char)
  | metricNotActionable
  | eventNotActionable (image : List Char)
  | metricSalvageable
  | eventSalvageable (image : List Char) (nodes : List (List Char))
deriving DecidableEq

/-- Embeds `Orchestrator.fail`: failure metric, ImageSalvageFailed event and
the optional notifier call. -/
def failActs (o : Orchestrator) (reason : List Char) : List OrchAct :=
  [OrchAct.metricFailure, OrchAct.eventSalvageFailed reason]
    ++ (if o.notifierPresent then [OrchAct.notifyCall ("salvage_failed".toList)] else [])

/-- The suffix after the first ':' (embeds `strings.Index(digest, ":")`). -/
def afterFirstColon : List Char → Option (List Char)
  | [] => none
  | c :: cs => if c = ':' then some cs else afterFirstColon cs

/-- Embeds the short-digest computation of `createSalvageRecord`. -/
def shortDigest (digest : List Char) : List Char :=
  let s := match afterFirstColon digest with
    | some t => t
    | none => digest
  if s.length > 8 then s.take 8 else s

/-- Embeds the record name `<podName>-<first 8 hex of digest>`. -/
def recordName (podName digest : List Char) : List Char :=
  podName ++ ('-' :: shortDigest digest)

/-- Decimal rendering of an Int, used for the size-exceeded message. -/
def intStr (n : Int) : List Char := (toString n).toList

/-- The reason string of the size-check failure. -/
def sizeReason (digest : List Char) (size maxSize : Int) : List Char :=
  ("image ".toList) ++ digest ++ (" is ".toList) ++ intStr size
    ++ (" bytes, exceeds limit ".toList) ++ intStr maxSize ++ (" bytes".toList)

/-- The rate-limited error message of `Salvage`. -/
def rateLimitedMsg : List Char := "rate limited: max concurrent salvages reached".toList

/-- Embeds `pushToBackupRegistry`: build the backup reference, record the
attempt, load credentials, push; every failure is non-fatal. -/
def pushTrace (o : Orchestrator) (w : AgentWorld) (digest sourceEndpoint : List Char) :
    List OrchAct :=
  match w.backupRef with
  | Except.error _ => []
  | Except.ok targetRef =>
    [OrchAct.metricPushAttempt] ++
    (match w.creds with
     | Except.error e => [OrchAct.metricPushFailure, OrchAct.eventPushFailed targetRef e]
     | Except.ok cr =>
       [OrchAct.pushImage sourceEndpoint digest targetRef cr.1 cr.2] ++
       (match w.push with
        | Except.error e => [OrchAct.metricPushFailure, OrchAct.eventPushFailed targetRef e]
        | Except.ok _ =>
          [OrchAct.metricPushSuccess, OrchAct.metricPushDuration, OrchAct.eventPushed targetRef]
            ++ (if o.notifierPresent then [OrchAct.notifyCall ("pushed".toList)] else [])))

/-- Embeds `Orchestrator.Salvage` of src/unnamed/part_003: attempt metric;
non-blocking semaphore; endpoint resolution; session creation with deferred
deletion; PrepareExport; size guard; ImportFrom; success metrics, event and
optional notifier; SalvageRecord creation (error only logged); optional
backup push (non-fatal); pod deletion when owned (error only logged).
Returns the action trace and the Go error result. -/
def Salvage (o : Orchestrator) (w : AgentWorld) (pod : Pod)
    (digest imageRef sourceNode : List Char) : List OrchAct × Option (List Char) :=
  if w.semaphoreFull then
    ([OrchAct.metricAttempt], some rateLimitedMsg)
  else
    match w.endpointFor sourceNode with
    | Except.error e =>
      ([OrchAct.metricAttempt, OrchAct.resolveEndpoint sourceNode]
          ++ failActs o (("resolving source agent: ".toList) ++ e)
          ++ [OrchAct.semRelease], some e)
    | Except.ok sourceEndpoint =>
      match w.endpointFor pod.nodeName with
      | Except.error e =>
        ([OrchAct.metricAttempt, OrchAct.resolveEndpoint sourceNode,
          OrchAct.resolveEndpoint pod.nodeName]
            ++ failActs o (("resolving target agent: ".toList) ++ e)
            ++ [OrchAct.semRelease], some e)
      | Except.ok targetEndpoint =>
        match w.prepareExport sourceEndpoint digest with
        | Except.error e =>
          ([OrchAct.metricAttempt, OrchAct.resolveEndpoint sourceNode,
            OrchAct.resolveEndpoint pod.nodeName,
            OrchAct.sessionCreate digest sourceNode pod.nodeName,
            OrchAct.prepareExport sourceEndpoint w.sessionToken digest]
              ++ failActs o (("prepare export: ".toList) ++ e)
              ++ [OrchAct.sessionDelete w.sessionToken, OrchAct.semRelease], some e)
        | Except.ok sizeBytes =>
          if 0 < o.maxImageSize ∧ o.maxImageSize < sizeBytes then
            ([OrchAct.metricAttempt, OrchAct.resolveEndpoint sourceNode,
              OrchAct.resolveEndpoint pod.nodeName,
              OrchAct.sessionCreate digest sourceNode pod.nodeName,
              OrchAct.prepareExport sourceEndpoint w.sessionToken digest]
                ++ failActs o (sizeReason digest sizeBytes o.maxImageSize)
                ++ [OrchAct.sessionDelete w.sessionToken, OrchAct.semRelease],
             some (("image size exceeded: ".toList) ++ sizeReason digest sizeBytes o.maxImageSize))
          else
            match w.importFrom targetEndpoint digest sourceEndpoint with
            | Except.error e =>
              ([OrchAct.metricAttempt, OrchAct.resolveEndpoint sourceNode,
                OrchAct.resolveEndpoint pod.nodeName,
                OrchAct.sessionCreate digest sourceNode pod.nodeName,
                OrchAct.prepareExport sourceEndpoint w.sessionToken digest,
                OrchAct.importFrom targetEndpoint w.sessionToken digest sourceEndpoint]
                  ++ failActs o (("import: ".toList) ++ e)
                  ++ [OrchAct.sessionDelete w.sessionToken, OrchAct.semRelease], some e)
            | Except.ok _ =>
              ([OrchAct.metricAttempt, OrchAct.resolveEndpoint sourceNode,
                OrchAct.resolveEndpoint pod.nodeName,
                OrchAct.sessionCreate digest sourceNode pod.nodeName,
                OrchAct.prepareExport sourceEndpoint w.sessionToken digest,
                OrchAct.importFrom targetEndpoint w.sessionToken digest sourceEndpoint,
                OrchAct.metricSuccess, OrchAct.metricDuration,
                OrchAct.eventSalvaged digest sourceNode pod.nodeName]
                  ++ (if o.notifierPresent then [OrchAct.notifyCall ("salvaged".toList)] else [])
                  ++ [OrchAct.recordCreate (recordName pod.name digest) pod.name digest
                        imageRef ("Completed".toList) []]
                  ++ (if o.backupRegistry == [] then [] else pushTrace o w digest sourceEndpoint)
                  ++ (if pod.ownerRefs.length > 0 then [OrchAct.deletePod pod.name] else [])
                  ++ [OrchAct.sessionDelete w.sessionToken, OrchAct.semRelease], none)

/-! ## Reconciler (internal/controller/controller.go) -/

/-- Operator configuration (internal/config/config.go). -/
structure Config where
  enabled : Bool
  deniedNamespaces : List (List Char)

/-- The default denied namespaces of config.go. -/
def defaultDenied : List (List Char) :=
  ["kube-system".toList, "kube-public".toList, "kube-node-lease".toList]

/-- Embeds `Config.IsDenied`. -/
def Config.isDenied (c : Config) (ns : List Char) : Bool :=
  c.deniedNamespaces.contains ns

/-- Embeds `config.New`. -/
def Config.new : Config :=
  { enabled := true, deniedNamespaces := defaultDenied }

/-- Annotation key `tote.dev/allow`. -/
def annotNamespaceAllow : List Char := "tote.dev/allow".toList

/-- Annotation key `tote.dev/auto-salvage`. -/
def annotPodAutoSalvage : List Char := "tote.dev/auto-salvage".toList

/-- Annotation key `tote.dev/salvaged-digest` (the one-shot guard). -/
def annotSalvagedDigest : List Char := "tote.dev/salvaged-digest".toList

/-- A namespace object with its annotations. -/
structure K8sNamespace where
  name : List Char
  annots : List (List Char × List Char)
deriving DecidableEq

/-- A persisted SalvageRecord object. -/
structure SalvageRecord where
  name : List Char
  ns : List Char
  podName : List Char
  digest : List Char
  imageRef : List Char
  sourceNode : List Char
  targetNode : List Char
  phase : List Char
  errMsg : List Char
deriving DecidableEq

/-- An owner workload object (Deployment, ReplicaSet, ...) with annotations. -/
structure OwnerWorkload where
  kind : List Char
  name : List Char
  annots : List (List Char × List Char)
deriving DecidableEq

/-- The cluster objects visible to the reconciler through its client.  The
embedded Reconcile never reads `records` or `owners`; they are part of the
state because the claims quantify over them. -/
structure ClusterState where
  pods : List Pod
  namespaces : List K8sNamespace
  nodes : List NodeInfo
  records : List SalvageRecord
  owners : List OwnerWorkload

/-- A reconcile request: namespaced pod name. -/
structure ReconcileRequest where
  ns : List Char
  name : List Char
deriving DecidableEq

/-- The controller-runtime result: `reconcile.Result{}` is `none`. -/
structure ReconcileResult where
  requeueAfter : Option Nat
deriving DecidableEq

/-- Non-cluster dependencies of the reconciler: nil-ness of the orchestrator
and agent resolver, the outcome of agent RPCs used by the corrupt-image and
tag-resolution paths, and the orchestrator call context. -/
structure ReconcilerEnv where
  orchestratorPresent : Bool
  agentResolverPresent : Bool
  removeImage : List Char → List Char → Option (List Char)
  agentResolveTag : List Char → List Char × List Char
  orch : Orchestrator
  world : AgentWorld

/-- Embeds controller.go `namespaceOptedIn`: missing namespace or any value
other than "true" refuses. -/
def namespaceOptedIn (state : ClusterState) (ns : List Char) : Bool :=
  match state.namespaces.find? (fun n => n.name == ns) with
  | none => false
  | some n => lookupAnnot n.annots annotNamespaceAllow == "true".toList

/-- Processing of one detected failure by the reconcile loop body: the
corrupt-image branch, digest resolution, node discovery with the tag
fallbacks, the salvageable event, the one-shot annotation guard, source-node
choice, and the `Salvage` invocation whose error is only logged. -/
def reconcileFailure (env : ReconcilerEnv) (state : ClusterState) (pod : Pod)
    (f : Failure) : List OrchAct :=
  [OrchAct.metricDetected] ++
  (if f.corruptImage then
    [OrchAct.metricCorruptImage] ++
    (if env.agentResolverPresent && !(pod.nodeName == []) then
      [OrchAct.eventCorruptImage f.image pod.nodeName,
       OrchAct.removeImage pod.nodeName f.image] ++
      (match env.removeImage pod.nodeName f.image with
       | some _ => []
       | none => if pod.ownerRefs.length > 0 then [OrchAct.deletePod pod.name] else [])
     else [])
  else
    let res := Resolve f.image
    let dn : List Char × List (List Char) :=
      if res.actionable then
        (res.digest, FindNodes state.nodes res.digest)
      else
        let d0 := (FindNodesByTag state.nodes f.image).1
        let ns0 := (FindNodesByTag state.nodes f.image).2
        if d0 == [] && env.agentResolverPresent then
          let d1 := (env.agentResolveTag f.image).1
          let srcNode := (env.agentResolveTag f.image).2
          if !(d1 == []) && !(srcNode == []) then (d1, [srcNode]) else (d1, ns0)
        else (d0, ns0)
    let digest := dn.1
    let nodes := dn.2
    if !res.actionable && digest == [] then
      [OrchAct.metricNotActionable, OrchAct.eventNotActionable f.image]
    else if nodes.length > 0 then
      [OrchAct.metricSalvageable, OrchAct.eventSalvageable f.image nodes] ++
      (if env.orchestratorPresent && !(pod.nodeName == []) then
        if lookupAnnot pod.annots annotSalvagedDigest == digest then []
        else
          match nodes.find? (fun n => !(n == pod.nodeName)) with
          | none => []
          | some src => (Salvage env.orch env.world pod digest f.image src).1
       else [])
    else [])

/-- Embeds controller.go `Reconcile`: kill switch, denied namespaces, pod
lookup (not-found is ignored), namespace opt-in, the pod's auto-salvage
annotation, failure detection, then the per-failure loop.  The in-memory
client cannot fail, so the unreachable list-error returns are omitted;
every modelled exit returns an empty result and no error. -/
def Reconcile (cfg : Config) (env : ReconcilerEnv) (state : ClusterState)
    (req : ReconcileRequest) :
    ReconcileResult × Option (List Char) × List OrchAct :=
  if !cfg.enabled then ({ requeueAfter := none }, none, [])
  else if cfg.isDenied req.ns then ({ requeueAfter := none }, none, [])
  else
    match state.pods.find? (fun p => p.name == req.name && p.ns == req.ns) with
    | none => ({ requeueAfter := none }, none, [])
    | some pod =>
      if !(namespaceOptedIn state pod.ns) then ({ requeueAfter := none }, none, [])
      else if !(lookupAnnot pod.annots annotPodAutoSalvage == "true".toList) then
        ({ requeueAfter := none }, none, [])
      else
        let fs := Detect pod
        if fs.isEmpty then ({ requeueAfter := none }, none, [])
        else
          ({ requeueAfter := none }, none,
            (fs.map (reconcileFailure env state pod)).flatten)

/-! ## Trace predicates used by the claims -/

/-- Recognises a PrepareExport call in a trace. -/
def isPrepareAct : OrchAct → Bool
  | OrchAct.prepareExport _ _ _ => true
  | _ => false

/-- Recognises an ImportFrom call in a trace. -/
def isImportAct : OrchAct → Bool
  | OrchAct.importFrom _ _ _ _ => true
  | _ => false

/-- Recognises a SalvageRecord creation in a trace. -/
def isRecordAct : OrchAct → Bool
  | OrchAct.recordCreate _ _ _ _ _ _ => true
  | _ => false

/-- Recognises an ImageSalvageFailed event in a trace. -/
def isSalvageFailedEvent : OrchAct → Bool
  | OrchAct.eventSalvageFailed _ => true
  | _ => false

/-- Scans a trace left to right and checks that no ImportFrom occurs before a
PrepareExport has occurred; `seen` records whether a PrepareExport has been
passed. -/
def importsAfterPrepare (seen : Bool) : List OrchAct → Bool
  | [] => true
  | a :: rest =>
    if isImportAct a && !seen then false
    else importsAfterPrepare (seen || isPrepareAct a) rest

/-- A record with the given digest exists (the claim's `Exists(digest)`). -/
def recordExists (records : List SalvageRecord) (digest : List Char) : Bool :=
  records.any (fun r => r.digest == digest)

/-! ## Concrete fixtures used by witnesses and counterexamples -/

/-- A valid 71-character digest "sha256:" plus 64 'a'. -/
def digestA : List Char := shaMarker ++ List.replicate 64 'a'

/-- A digest-form image reference. -/
def imageA : List Char := ("registry.example.com/app".toList) ++ ('@' :: digestA)

/-- A container status in ImagePullBackOff. -/
def failingStatus : ContainerStatus :=
  { name := "app".toList, image := imageA,
    waiting := some { reason := "ImagePullBackOff".toList, message := "pull failed".toList } }

/-- A failing pod without the auto-salvage annotation but owned by a
workload that carries it. -/
def cexPodNoAnnot : Pod :=
  { name := "app".toList, ns := "default".toList, nodeName := "node-2".toList,
    annots := [],
    ownerRefs := [{ kind := "ReplicaSet".toList, name := "app-rs".toList }],
    containers := [{ name := "app".toList, image := imageA }],
    initContainers := [], containerStatuses := [failingStatus],
    initContainerStatuses := [] }

/-- The same pod with the auto-salvage annotation set directly. -/
def cexPodOpted : Pod :=
  { cexPodNoAnnot with annots := [(annotPodAutoSalvage, "true".toList)] }

/-- A namespace with allow=true. -/
def allowedNs : K8sNamespace :=
  { name := "default".toList, annots := [(annotNamespaceAllow, "true".toList)] }

/-- An owner workload carrying auto-salvage=true. -/
def annotatedOwner : OwnerWorkload :=
  { kind := "ReplicaSet".toList, name := "app-rs".toList,
    annots := [(annotPodAutoSalvage, "true".toList)] }

/-- A node that reports the digest-form image. -/
def nodeWithImageA : NodeInfo :=
  { name := "node-1".toList, images := [[imageA]] }

/-- A world where every remote call succeeds except the backup push, the
record creation and the pod deletion (which `Salvage` only logs). -/
def okWorld : AgentWorld :=
  { semaphoreFull := false,
    endpointFor := fun n => Except.ok (n ++ (":9090".toList)),
    prepareExport := fun _ _ => Except.ok 5,
    importFrom := fun _ _ _ => Except.ok (),
    sessionToken := "tok".toList,
    recordCreateErr := some ("record create failed".toList),
    backupRef := Except.ok ("backup.example.com/app".toList),
    creds := Except.ok ([], []),
    push := Except.error ("push failed".toList),
    deleteErr := some ("delete failed".toList) }

/-- The same world with the semaphore full. -/
def fullWorld : AgentWorld := { okWorld with semaphoreFull := true }

/-- A world whose PrepareExport reports 14 bytes. -/
def sizeWorld : AgentWorld := { okWorld with prepareExport := fun _ _ => Except.ok 14 }

/-- A minimal orchestrator: no size limit, no backup registry, no notifier. -/
def baseOrch : Orchestrator :=
  { maxImageSize := 0, backupRegistry := [], notifierPresent := false }

/-- An orchestrator with a 10-byte size limit. -/
def sizeOrch : Orchestrator :=
  { maxImageSize := 10, backupRegistry := [], notifierPresent := false }

/-- A reconciler environment with an orchestrator and the succeeding world. -/
def baseEnv : ReconcilerEnv :=
  { orchestratorPresent := true, agentResolverPresent := false,
    removeImage := fun _ _ => none,
    agentResolveTag := fun _ => ([], []),
    orch := baseOrch, world := okWorld }

/-- The same environment with the semaphore-full world. -/
def envFull : ReconcilerEnv := { baseEnv with world := fullWorld }

/-- A Completed SalvageRecord for `digestA`. -/
def recordForA : SalvageRecord :=
  { name := recordName ("app".toList) digestA, ns := "default".toList,
    podName := "app".toList, digest := digestA, imageRef := imageA,
    sourceNode := "node-1".toList, targetNode := "node-2".toList,
    phase := "Completed".toList, errMsg := [] }

/-- Cluster state for the C2 counterexample: annotated owner, unannotated pod. -/
def stateC2 : ClusterState :=
  { pods := [cexPodNoAnnot], namespaces := [allowedNs], nodes := [nodeWithImageA],
    records := [], owners := [annotatedOwner] }

/-- Cluster state with an opted-in failing pod and an existing record. -/
def stateC3 : ClusterState :=
  { pods := [cexPodOpted], namespaces := [allowedNs], nodes := [nodeWithImageA],
    records := [recordForA], owners := [] }

/-- The reconcile request for the fixture pod. -/
def reqApp : ReconcileRequest := { ns := "default".toList, name := "app".toList }

/-- The opted-in pod additionally carrying the salvaged-digest guard. -/
def cexPodSalvaged : Pod :=
  { cexPodOpted with
    annots := [(annotPodAutoSalvage, "true".toList), (annotSalvagedDigest, digestA)] }

/-- The pull failure the detector reports for the fixture pod. -/
def failureA : Failure :=
  { containerName := "app".toList, image := imageA,
    reason := "ImagePullBackOff".toList, message := "pull failed".toList,
    corruptImage := false }

/-- Concrete input for the C1 counterexample: a digest-shaped suffix made of
64 'z' characters, which are not hexadecimal. -/
def c1Input : List Char := ['r', '@'] ++ shaMarker ++ List.replicate 64 'z'

/-- A session that expired at tick 5. -/
def sessExpired : Sess :=
  { token := "t".toList, digest := digestA, sourceNode := "node-1".toList,
    targetNode := "node-2".toList, expiresAt := 5 }

/-- A small export run. -/
def run0 : ExportRun := { chunks := [[1, 2, 3]], producerErr := none }

theorem afterLastAt_eq_none {R : List Char} :
    afterLastAt R = none ↔ '@' ∉ R := by
  induction R with
  | nil => simp [afterLastAt]
  | cons c cs ih =>
    simp only [afterLastAt]
    cases h : afterLastAt cs with
    | some d =>
      simp only [h]
      constructor
      · intro hc; exact absurd hc (by simp)
      · intro hc
        exact absurd (ih.mpr (fun hm => hc (List.mem_cons_of_mem _ hm))) (by simp [h])
    | none =>
      have hcs : '@' ∉ cs := ih.mp h
      by_cases hc : c = '@'
      · subst hc; simp [hcs]
      · simp [hc, hcs, Ne.symm hc]

theorem afterLastAt_eq_some {R d : List Char} :
    afterLastAt R = some d ↔ ∃ a, R = a ++ '@' :: d ∧ '@' ∉ d := by
  induction R generalizing d with
  | nil =>
    simp [afterLastAt]
  | cons c cs ih =>
    simp only [afterLastAt]
    cases h : afterLastAt cs with
    | some d' =>
      obtain ⟨a', ha', hd'⟩ := ih.mp h
      simp only [h, Option.some_inj]
      constructor
      · rintro rfl
        exact ⟨c :: a', by simp [ha'], hd'⟩
      · rintro ⟨a, ha, hd⟩
        cases a with
        | nil =>
          simp only [List.nil_append, List.cons.injEq] at ha
          have hmem : '@' ∈ cs := by rw [ha'] ; simp
          exact absurd (ha.2 ▸ hmem) hd
        | cons b a₂ =>
          simp only [List.cons_append, List.cons.injEq] at ha
          have h2 := ih.mpr ⟨a₂, ha.2, hd⟩
          rw [h] at h2
          exact Option.some_inj.mp h2
    | none =>
      have hcs : '@' ∉ cs := afterLastAt_eq_none.mp h
      by_cases hc : c = '@'
      · subst hc
        rw [if_pos rfl]
        constructor
        · intro h'
          have hcd : cs = d := Option.some_inj.mp h'
          subst hcd
          exact ⟨[], by simp, hcs⟩
        · rintro ⟨a, ha, hd⟩
          cases a with
          | nil =>
            simp only [List.nil_append, List.cons.injEq] at ha
            rw [ha.2]
          | cons b a₂ =>
            simp only [List.cons_append, List.cons.injEq] at ha
            have hmem : '@' ∈ cs := by rw [ha.2] ; simp
            exact absurd hmem hcs
      · rw [if_neg hc]
        constructor
        · intro hcon; exact absurd hcon (by simp)
        · rintro ⟨a, ha, hd⟩
          cases a with
          | nil =>
            simp only [List.nil_append, List.cons.injEq] at ha
            exact absurd ha.1 hc
          | cons b a₂ =>
            simp only [List.cons_append, List.cons.injEq] at ha
            have h2 := ih.mpr ⟨a₂, ha.2, hd⟩
            rw [h] at h2
            cases h2

/-- Reduction of `Resolve` when the reference has an '@'. -/
theorem resolve_some {R d : List Char} (h : afterLastAt R = some d) :
    Resolve R =
      if shaMarker.isPrefixOf d && d.length == 71 then
        { original := R, digest := d, actionable := true }
      else { original := R, digest := [], actionable := false } := by
  unfold Resolve
  rw [h]

/-- Reduction of `Resolve` when the reference has no '@'. -/
theorem resolve_none {R : List Char} (h : afterLastAt R = none) :
    Resolve R = { original := R, digest := [], actionable := false } := by
  unfold Resolve
  rw [h]

theorem resolve_original_def (R : List Char) : (Resolve R).original = R := by
  cases h : afterLastAt R with
  | none => rw [resolve_none h]
  | some d =>
    rw [resolve_some h]
    by_cases hd : (shaMarker.isPrefixOf d && d.length == 71) = true
    · rw [if_pos hd]
    · rw [if_neg hd]

theorem codeActionable_eq_false_of_not_mem {R : List Char} (h : '@' ∉ R) :
    codeActionable R = false := by
  induction R with
  | nil => rfl
  | cons c cs ih =>
    have hc : ¬(c = '@') := fun hh => h (hh ▸ List.mem_cons_self c cs)
    have hcs : '@' ∉ cs := fun hm => h (List.mem_cons_of_mem _ hm)
    simp [codeActionable, hc, ih hcs]

theorem resolve_actionable_eq_code (R : List Char) :
    (Resolve R).actionable = codeActionable R := by
  induction R with
  | nil => rfl
  | cons c cs ih =>
    cases h : afterLastAt cs with
    | some d =>
      have hR : afterLastAt (c :: cs) = some d := by
        simp only [afterLastAt, h]
      have hmem : '@' ∈ cs := by
        obtain ⟨a, ha, _⟩ := afterLastAt_eq_some.mp h
        rw [ha] ; simp
      have hcontains : cs.contains '@' = true := by
        simp [List.contains] ; exact hmem
      rw [resolve_some hR]
      rw [resolve_some h] at ih
      simp only [codeActionable, hcontains, Bool.not_true, Bool.and_false,
        Bool.false_and, Bool.false_or]
      by_cases hcond : (shaMarker.isPrefixOf d && d.length == 71) = true
      · rw [if_pos hcond] at ih ⊢
        exact ih
      · rw [if_neg hcond] at ih ⊢
        exact ih
    | none =>
      have hcs : '@' ∉ cs := afterLastAt_eq_none.mp h
      have hcontains : cs.contains '@' = false := by
        simp [List.contains] ; exact hcs
      have hcode : codeActionable cs = false := codeActionable_eq_false_of_not_mem hcs
      by_cases hc : c = '@'
      · have hR : afterLastAt (c :: cs) = some cs := by
          simp only [afterLastAt, h]
          rw [if_pos hc]
        rw [resolve_some hR]
        have hrhs : codeActionable ('@' :: cs) = (shaMarker.isPrefixOf cs && cs.length == 71) := by
          simp [codeActionable, hcontains, hcode]
          exact fun _ _ => hcs
        rw [hc, hrhs]
        by_cases hcond : (shaMarker.isPrefixOf cs && cs.length == 71) = true
        · rw [if_pos hcond]
          exact hcond.symm
        · rw [if_neg hcond]
          exact ((Bool.not_eq_true _).mp hcond).symm
      · have hR : afterLastAt (c :: cs) = none := by
          simp only [afterLastAt, h]
          rw [if_neg hc]
        rw [resolve_none hR]
        simp [codeActionable, hc, hcode]

/-- C1 counterexample: `Resolve` marks `c1Input` actionable although its
64 trailing characters are not hexadecimal, so the claimed equivalence
"actionable iff the reference ends in '@sha256:' plus 64 hex characters"
fails on the code. -/
theorem c1_counterexample :
    (Resolve c1Input).actionable = true ∧ claimActionable c1Input = false := by
  constructor
  · rfl
  · rfl

/-- C1 (amended): a reference is actionable iff the segment after its last
'@' is "sha256:" plus exactly 64 further characters, hexadecimality not
checked; the digest field is then exactly that segment, the original string
is always preserved, and `Resolve` is total (empty or malformed input just
yields actionable = false). -/
theorem c1_amended (R : List Char) :
    ((Resolve R).actionable = codeActionable R) ∧
    ((Resolve R).original = R) ∧
    ((Resolve R).actionable = true →
      ∃ a, R = a ++ '@' :: (Resolve R).digest ∧
        shaMarker.isPrefixOf (Resolve R).digest = true ∧
        (Resolve R).digest.length = 71) ∧
    ((Resolve R).actionable = false → (Resolve R).digest = []) := by
  refine ⟨resolve_actionable_eq_code R, resolve_original_def R, ?_, ?_⟩
  · intro hact
    cases h : afterLastAt R with
    | none =>
      rw [resolve_none h] at hact
      cases hact
    | some d =>
      rw [resolve_some h] at hact
      by_cases hcond : (shaMarker.isPrefixOf d && d.length == 71) = true
      · have hdig : (Resolve R).digest = d := by
          rw [resolve_some h, if_pos hcond]
        obtain ⟨a, ha, -⟩ := afterLastAt_eq_some.mp h
        refine ⟨a, by rw [hdig] ; exact ha, ?_, ?_⟩
        · rw [hdig]
          exact ((Bool.and_eq_true _ _).mp hcond).1
        · rw [hdig]
          have := ((Bool.and_eq_true _ _).mp hcond).2
          simpa using this
      · rw [if_neg hcond] at hact
        cases hact
  · intro hact
    cases h : afterLastAt R with
    | none => rw [resolve_none h]
    | some d =>
      rw [resolve_some h] at hact ⊢
      by_cases hcond : (shaMarker.isPrefixOf d && d.length == 71) = true
      · rw [if_pos hcond] at hact
        cases hact
      · rw [if_neg hcond]

/-! ### C9: failure detector -/

theorem detect_step (specs : List ContainerSpec) (cs : ContainerStatus) :
    (match cs.waiting with
     | none => ([] : List Failure)
     | some w =>
       if pullFailureReason w.reason then
         [{ containerName := cs.name, image := specImage specs cs.name,
            reason := w.reason, message := w.message, corruptImage := false }]
       else if (w.reason == "CreateContainerError".toList) && isCorruptImageMessage w.message then
         [{ containerName := cs.name, image := specImage specs cs.name,
            reason := w.reason, message := w.message, corruptImage := true }]
       else []) = (claimFailureFor specs cs).toList := by
  cases hw : cs.waiting with
  | none => simp [claimFailureFor, hw]
  | some w =>
    simp only [claimFailureFor, hw]
    by_cases h1 : pullFailureReason w.reason = true
    · have h1' : (w.reason == "ImagePullBackOff".toList || w.reason == "ErrImagePull".toList) = true := h1
      rw [if_pos h1, if_pos h1']
      rfl
    · have h1' : ¬((w.reason == "ImagePullBackOff".toList || w.reason == "ErrImagePull".toList) = true) := h1
      rw [if_neg h1, if_neg h1']
      by_cases h2 : ((w.reason == "CreateContainerError".toList) && isCorruptImageMessage w.message) = true
      · have h2' : ((w.reason == "CreateContainerError".toList) &&
            (containsB w.message ("failed to resolve rootfs".toList) &&
             containsB w.message ("content digest".toList) &&
             containsB w.message ("not found".toList))) = true := h2
        rw [if_pos h2, if_pos h2']
        rfl
      · have h2' : ¬(((w.reason == "CreateContainerError".toList) &&
            (containsB w.message ("failed to resolve rootfs".toList) &&
             containsB w.message ("content digest".toList) &&
             containsB w.message ("not found".toList))) = true) := h2
        rw [if_neg h2, if_neg h2']
        rfl

theorem detectInStatuses_eq_filterMap (specs : List ContainerSpec) (sts : List ContainerStatus) :
    detectInStatuses specs sts = sts.filterMap (claimFailureFor specs) := by
  induction sts with
  | nil => rfl
  | cons cs rest ih =>
    rw [List.filterMap_cons]
    simp only [detectInStatuses]
    rw [detect_step]
    cases hcf : claimFailureFor specs cs with
    | none => simpa using ih
    | some b => simpa using ih

/-- C9: `Detect` returns exactly one failure per waiting container whose
reason is ImagePullBackOff or ErrImagePull (corruptImage = false) or whose
reason is CreateContainerError with a message containing the three corrupt
substrings (corruptImage = true); other containers are ignored, the image is
read from the pod spec, and main-container failures precede init-container
failures in status-list order. -/
theorem c9_detect_matches_spec (pod : Pod) : Detect pod = claimDetect pod := by
  unfold Detect claimDetect
  rw [detectInStatuses_eq_filterMap, detectInStatuses_eq_filterMap]

/-! ### C6: session scope of ExportImage -/

/-- Reduction of `Validate` when the token is absent. -/
theorem validate_none {store : List Sess} {now : Nat} {token : List Char}
    (h : lookupSession store token = none) :
    Validate store now token = (store, none) := by
  unfold Validate
  rw [h]

/-- Reduction of `Validate` when the token is present. -/
theorem validate_some {store : List Sess} {now : Nat} {token : List Char} {s : Sess}
    (h : lookupSession store token = some s) :
    Validate store now token =
      if s.expiresAt < now then (store.filter (fun x => !(x.token == token)), none)
      else (store, some s) := by
  unfold Validate
  rw [h]

/-- C6: `Validate` returns the session iff it is present and not past its
expiry, deleting an expired entry on read; an `ExportImage` whose token has
no valid session fails with no DataChunk sent. -/
theorem c6_session_scope (store : List Sess) (now : Nat) (token : List Char) (run : ExportRun) :
    ((Validate store now token).2 = none →
      (ExportImage store now token run).2.1 = [] ∧
      (ExportImage store now token run).2.2.isSome = true) ∧
    (∀ s : Sess, (Validate store now token).2 = some s ↔
      (lookupSession store token = some s ∧ ¬(s.expiresAt < now))) ∧
    (∀ s : Sess, lookupSession store token = some s → s.expiresAt < now →
      (Validate store now token).1 = store.filter (fun x => !(x.token == token))) := by
  refine ⟨?_, ?_, ?_⟩
  · intro hv
    unfold ExportImage
    by_cases ht : (token == []) = true
    · rw [if_pos ht]
      constructor
      · rfl
      · rfl
    · rw [if_neg ht]
      simp only [hv]
      constructor
      · simp
      · simp
  · intro s
    cases hl : lookupSession store token with
    | none =>
      rw [validate_none hl]
      simp
    | some s0 =>
      rw [validate_some hl]
      by_cases he : s0.expiresAt < now
      · rw [if_pos he]
        constructor
        · intro hc
          exact absurd hc (by simp)
        · rintro ⟨hs, hne⟩
          exact absurd ((Option.some_inj.mp hs) ▸ he) hne
      · rw [if_neg he]
        constructor
        · intro hs
          have hss : s0 = s := Option.some_inj.mp hs
          subst hss
          exact ⟨rfl, he⟩
        · rintro ⟨hs, -⟩
          exact hs
  · intro s hs he
    rw [validate_some hs, if_pos he]

/-! ### C8: rate limiting -/

/-- C8: when the semaphore is full, `Salvage` returns immediately with the
rate-limited error; the trace is exactly the attempt metric, so no endpoint
resolution, session creation, agent call or ImageSalvageFailed event
happens. -/
theorem c8_rate_limited (o : Orchestrator) (w : AgentWorld) (pod : Pod)
    (digest imageRef sourceNode : List Char) (h : w.semaphoreFull = true) :
    Salvage o w pod digest imageRef sourceNode =
      ([OrchAct.metricAttempt], some rateLimitedMsg) := by
  unfold Salvage
  rw [h, if_pos rfl]

/-- Witness for C8 at a concrete full-semaphore world. -/
theorem c8_witness :
    Salvage baseOrch fullWorld cexPodOpted digestA imageA ("node-1".toList) =
      ([OrchAct.metricAttempt], some rateLimitedMsg) :=
  c8_rate_limited baseOrch fullWorld cexPodOpted digestA imageA ("node-1".toList) rfl

/-- Witness for C6 at an expired session: export fails with no chunk sent,
and the expired entry is removed from the store. -/
theorem c6_witness :
    ((ExportImage [sessExpired] 9 ("t".toList) run0).2.1 = [] ∧
     (ExportImage [sessExpired] 9 ("t".toList) run0).2.2.isSome = true) ∧
    (Validate [sessExpired] 9 ("t".toList)).1 =
      List.filter (fun x => !(x.token == ("t".toList))) [sessExpired] :=
  ⟨(c6_session_scope [sessExpired] 9 ("t".toList) run0).1 (by decide),
   (c6_session_scope [sessExpired] 9 ("t".toList) run0).2.2 sessExpired (by decide) (by decide)⟩

/-! ### Salvage branch reductions (helpers shared by several claims) -/

theorem salvage_rl {o : Orchestrator} {w : AgentWorld} {pod : Pod}
    {digest imageRef sourceNode : List Char} (h : w.semaphoreFull = true) :
    Salvage o w pod digest imageRef sourceNode =
      ([OrchAct.metricAttempt], some rateLimitedMsg) := by
  unfold Salvage
  rw [h, if_pos rfl]

theorem salvage_src_err {o : Orchestrator} {w : AgentWorld} {pod : Pod}
    {digest imageRef sourceNode e : List Char}
    (hsem : w.semaphoreFull = false)
    (hsrc : w.endpointFor sourceNode = Except.error e) :
    Salvage o w pod digest imageRef sourceNode =
      ([OrchAct.metricAttempt, OrchAct.resolveEndpoint sourceNode]
         ++ failActs o (("resolving source agent: ".toList) ++ e)
         ++ [OrchAct.semRelease], some e) := by
  unfold Salvage
  simp only [hsem, Bool.false_eq_true, if_false, hsrc]

theorem salvage_tgt_err {o : Orchestrator} {w : AgentWorld} {pod : Pod}
    {digest imageRef sourceNode srcEp e : List Char}
    (hsem : w.semaphoreFull = false)
    (hsrc : w.endpointFor sourceNode = Except.ok srcEp)
    (htgt : w.endpointFor pod.nodeName = Except.error e) :
    Salvage o w pod digest imageRef sourceNode =
      ([OrchAct.metricAttempt, OrchAct.resolveEndpoint sourceNode,
        OrchAct.resolveEndpoint pod.nodeName]
         ++ failActs o (("resolving target agent: ".toList) ++ e)
         ++ [OrchAct.semRelease], some e) := by
  unfold Salvage
  simp only [hsem, Bool.false_eq_true, if_false, hsrc, htgt]

theorem salvage_prep_err {o : Orchestrator} {w : AgentWorld} {pod : Pod}
    {digest imageRef sourceNode srcEp tgtEp e : List Char}
    (hsem : w.semaphoreFull = false)
    (hsrc : w.endpointFor sourceNode = Except.ok srcEp)
    (htgt : w.endpointFor pod.nodeName = Except.ok tgtEp)
    (hprep : w.prepareExport srcEp digest = Except.error e) :
    Salvage o w pod digest imageRef sourceNode =
      ([OrchAct.metricAttempt, OrchAct.resolveEndpoint sourceNode,
        OrchAct.resolveEndpoint pod.nodeName,
        OrchAct.sessionCreate digest sourceNode pod.nodeName,
        OrchAct.prepareExport srcEp w.sessionToken digest]
         ++ failActs o (("prepare export: ".toList) ++ e)
         ++ [OrchAct.sessionDelete w.sessionToken, OrchAct.semRelease], some e) := by
  unfold Salvage
  simp only [hsem, Bool.false_eq_true, if_false, hsrc, htgt, hprep]

theorem salvage_proceed {o : Orchestrator} {w : AgentWorld} {pod : Pod}
    {digest imageRef sourceNode srcEp tgtEp : List Char} {size : Int}
    (hsem : w.semaphoreFull = false)
    (hsrc : w.endpointFor sourceNode = Except.ok srcEp)
    (htgt : w.endpointFor pod.nodeName = Except.ok tgtEp)
    (hprep : w.prepareExport srcEp digest = Except.ok size) :
    Salvage o w pod digest imageRef sourceNode =
      (if 0 < o.maxImageSize ∧ o.maxImageSize < size then
         ([OrchAct.metricAttempt, OrchAct.resolveEndpoint sourceNode,
           OrchAct.resolveEndpoint pod.nodeName,
           OrchAct.sessionCreate digest sourceNode pod.nodeName,
           OrchAct.prepareExport srcEp w.sessionToken digest]
             ++ failActs o (sizeReason digest size o.maxImageSize)
             ++ [OrchAct.sessionDelete w.sessionToken, OrchAct.semRelease],
          some (("image size exceeded: ".toList) ++ sizeReason digest size o.maxImageSize))
       else
         match w.importFrom tgtEp digest srcEp with
         | Except.error e =>
           ([OrchAct.metricAttempt, OrchAct.resolveEndpoint sourceNode,
             OrchAct.resolveEndpoint pod.nodeName,
             OrchAct.sessionCreate digest sourceNode pod.nodeName,
             OrchAct.prepareExport srcEp w.sessionToken digest,
             OrchAct.importFrom tgtEp w.sessionToken digest srcEp]
               ++ failActs o (("import: ".toList) ++ e)
               ++ [OrchAct.sessionDelete w.sessionToken, OrchAct.semRelease], some e)
         | Except.ok _ =>
           ([OrchAct.metricAttempt, OrchAct.resolveEndpoint sourceNode,
             OrchAct.resolveEndpoint pod.nodeName,
             OrchAct.sessionCreate digest sourceNode pod.nodeName,
             OrchAct.prepareExport srcEp w.sessionToken digest,
             OrchAct.importFrom tgtEp w.sessionToken digest srcEp,
             OrchAct.metricSuccess, OrchAct.metricDuration,
             OrchAct.eventSalvaged digest sourceNode pod.nodeName]
               ++ (if o.notifierPresent then [OrchAct.notifyCall ("salvaged".toList)] else [])
               ++ [OrchAct.recordCreate (recordName pod.name digest) pod.name digest
                     imageRef ("Completed".toList) []]
               ++ (if o.backupRegistry == [] then [] else pushTrace o w digest srcEp)
               ++ (if pod.ownerRefs.length > 0 then [OrchAct.deletePod pod.name] else [])
               ++ [OrchAct.sessionDelete w.sessionToken, OrchAct.semRelease], none)) := by
  unfold Salvage
  simp only [hsem, Bool.false_eq_true, if_false, hsrc, htgt, hprep]

theorem failActs_any_false (o : Orchestrator) (r : List Char) (p : OrchAct → Bool)
    (h1 : p OrchAct.metricFailure = false)
    (h2 : ∀ x, p (OrchAct.eventSalvageFailed x) = false)
    (h3 : ∀ x, p (OrchAct.notifyCall x) = false) :
    (failActs o r).any p = false := by
  cases hn : o.notifierPresent <;> simp [failActs, hn, h1, h2, h3]

theorem pushTrace_any_false (o : Orchestrator) (w : AgentWorld) (digest srcEp : List Char)
    (p : OrchAct → Bool)
    (h1 : p OrchAct.metricPushAttempt = false)
    (h2 : ∀ a b, p (OrchAct.eventPushFailed a b) = false)
    (h3 : p OrchAct.metricPushFailure = false)
    (h4 : p OrchAct.metricPushSuccess = false)
    (h5 : p OrchAct.metricPushDuration = false)
    (h6 : ∀ a, p (OrchAct.eventPushed a) = false)
    (h7 : ∀ a b c d e, p (OrchAct.pushImage a b c d e) = false)
    (h8 : ∀ x, p (OrchAct.notifyCall x) = false) :
    (pushTrace o w digest srcEp).any p = false := by
  unfold pushTrace
  cases hbr : w.backupRef with
  | error e => simp
  | ok tr =>
    cases hcr : w.creds with
    | error e => simp [h1, h2, h3]
    | ok cr =>
      cases hp : w.push with
      | error e => simp [h1, h7, h3, h2]
      | ok u => cases hn : o.notifierPresent <;> simp [h1, h7, h4, h5, h6, h8, hn]

theorem pushTrace_all_true (o : Orchestrator) (w : AgentWorld) (digest srcEp : List Char)
    (p : OrchAct → Bool) (hp : ∀ a, isRecordAct a = false → p a = true) :
    (pushTrace o w digest srcEp).all p = true := by
  have h1 := hp OrchAct.metricPushAttempt rfl
  have h2 := fun a b => hp (OrchAct.eventPushFailed a b) rfl
  have h3 := hp OrchAct.metricPushFailure rfl
  have h4 := hp OrchAct.metricPushSuccess rfl
  have h5 := hp OrchAct.metricPushDuration rfl
  have h6 := fun a => hp (OrchAct.eventPushed a) rfl
  have h7 := fun a b c d e => hp (OrchAct.pushImage a b c d e) rfl
  have h8 := fun x => hp (OrchAct.notifyCall x) rfl
  unfold pushTrace
  cases hbr : w.backupRef with
  | error e => simp
  | ok tr =>
    cases hcr : w.creds with
    | error e => simp [h1, h2, h3]
    | ok cr =>
      cases hpu : w.push with
      | error e => simp [h1, h7, h3, h2]
      | ok u => cases hn : o.notifierPresent <;> simp [h1, h7, h4, h5, h6, h8, hn]

theorem importsAfterPrepare_of_seen (l : List OrchAct) :
    importsAfterPrepare true l = true := by
  induction l with
  | nil => rfl
  | cons a rest ih => simp [importsAfterPrepare, ih]

theorem importsAfterPrepare_of_no_import (l : List OrchAct)
    (h : l.any isImportAct = false) : ∀ seen, importsAfterPrepare seen l = true := by
  induction l with
  | nil => intro seen; rfl
  | cons a rest ih =>
    intro seen
    simp only [List.any_cons, Bool.or_eq_false_iff] at h
    simp [importsAfterPrepare, h.1, ih h.2]

/-! ### C4: size guard and PrepareExport before ImportFrom -/

/-- C4: with a positive limit and an oversized PrepareExport answer, Salvage
fails with the image-size-exceeded error and the trace has no ImportFrom;
moreover, in every run of Salvage a PrepareExport call strictly precedes any
ImportFrom call. -/
theorem c4_size_guard (o : Orchestrator) (w : AgentWorld) (pod : Pod)
    (digest imageRef sourceNode srcEp tgtEp : List Char) (size : Int) :
    (w.semaphoreFull = false →
     w.endpointFor sourceNode = Except.ok srcEp →
     w.endpointFor pod.nodeName = Except.ok tgtEp →
     w.prepareExport srcEp digest = Except.ok size →
     0 < o.maxImageSize → o.maxImageSize < size →
     (Salvage o w pod digest imageRef sourceNode).2 =
       some (("image size exceeded: ".toList) ++ sizeReason digest size o.maxImageSize) ∧
     ((Salvage o w pod digest imageRef sourceNode).1.any isImportAct) = false) ∧
    importsAfterPrepare false (Salvage o w pod digest imageRef sourceNode).1 = true := by
  constructor
  · intro hsem hsrc htgt hprep hmax hsz
    rw [salvage_proceed hsem hsrc htgt hprep]
    rw [if_pos ⟨hmax, hsz⟩]
    refine ⟨rfl, ?_⟩
    simp [isImportAct, failActs_any_false]
  · cases hsem : w.semaphoreFull with
    | true =>
      rw [salvage_rl hsem]
      simp [importsAfterPrepare, isImportAct]
    | false =>
      cases hsrc : w.endpointFor sourceNode with
      | error e =>
        rw [salvage_src_err hsem hsrc]
        apply importsAfterPrepare_of_no_import
        simp [isImportAct, failActs_any_false]
      | ok srcEp2 =>
        cases htgt : w.endpointFor pod.nodeName with
        | error e =>
          rw [salvage_tgt_err hsem hsrc htgt]
          apply importsAfterPrepare_of_no_import
          simp [isImportAct, failActs_any_false]
        | ok tgtEp2 =>
          cases hprep : w.prepareExport srcEp2 digest with
          | error e =>
            rw [salvage_prep_err hsem hsrc htgt hprep]
            apply importsAfterPrepare_of_no_import
            simp [isImportAct, failActs_any_false]
          | ok size2 =>
            rw [salvage_proceed hsem hsrc htgt hprep]
            by_cases hbig : 0 < o.maxImageSize ∧ o.maxImageSize < size2
            · rw [if_pos hbig]
              apply importsAfterPrepare_of_no_import
              simp [isImportAct, failActs_any_false]
            · rw [if_neg hbig]
              cases himp : w.importFrom tgtEp2 digest srcEp2 with
              | error e =>
                simp [importsAfterPrepare, isImportAct, isPrepareAct,
                  importsAfterPrepare_of_seen]
              | ok u =>
                simp [importsAfterPrepare, isImportAct, isPrepareAct,
                  importsAfterPrepare_of_seen]

/-- Witness for C4 at a 10-byte limit and a 14-byte image. -/
theorem c4_witness :
    (Salvage sizeOrch sizeWorld cexPodOpted digestA imageA ("node-1".toList)).2 =
      some (("image size exceeded: ".toList) ++ sizeReason digestA 14 10) ∧
    ((Salvage sizeOrch sizeWorld cexPodOpted digestA imageA ("node-1".toList)).1.any
        isImportAct) = false :=
  (c4_size_guard sizeOrch sizeWorld cexPodOpted digestA imageA ("node-1".toList)
      (("node-1".toList) ++ (":9090".toList)) (("node-2".toList) ++ (":9090".toList)) 14).1
    rfl rfl rfl rfl (by decide) (by decide)

/-! ### C5: no Failed record is written -/

/-- C5 counterexample: at the size-exceeded input of the claim's own
scenario (limit 10, size 14), Salvage fails but its trace contains no
SalvageRecord creation at all, contradicting "a record with phase=Failed is
persisted". -/
theorem c5_counterexample :
    (Salvage sizeOrch sizeWorld cexPodOpted digestA imageA ("node-1".toList)).2.isSome = true ∧
    ((Salvage sizeOrch sizeWorld cexPodOpted digestA imageA ("node-1".toList)).1.any
        isRecordAct) = false := by
  constructor
  · decide
  · decide

/-- C5 (amended): Salvage never persists a record on failure; a record
creation appears in the trace exactly when the salvage succeeded, and every
record it creates carries phase Completed. -/
theorem c5_amended (o : Orchestrator) (w : AgentWorld) (pod : Pod)
    (digest imageRef sourceNode : List Char) :
    (((Salvage o w pod digest imageRef sourceNode).1.any isRecordAct) =
      ((Salvage o w pod digest imageRef sourceNode).2 == none)) ∧
    (((Salvage o w pod digest imageRef sourceNode).1.all (fun a => !(isRecordAct a) ||
        (a == OrchAct.recordCreate (recordName pod.name digest) pod.name digest
          imageRef ("Completed".toList) []))) = true) := by
  cases hsem : w.semaphoreFull with
  | true =>
    rw [salvage_rl hsem]
    constructor
    · decide
    · simp [isRecordAct]
  | false =>
    cases hsrc : w.endpointFor sourceNode with
    | error e =>
      rw [salvage_src_err hsem hsrc]
      constructor
      · simp [isRecordAct, failActs_any_false]
      · cases hn : o.notifierPresent <;> simp [failActs, hn, isRecordAct]
    | ok srcEp =>
      cases htgt : w.endpointFor pod.nodeName with
      | error e =>
        rw [salvage_tgt_err hsem hsrc htgt]
        constructor
        · simp [isRecordAct, failActs_any_false]
        · cases hn : o.notifierPresent <;> simp [failActs, hn, isRecordAct]
      | ok tgtEp =>
        cases hprep : w.prepareExport srcEp digest with
        | error e =>
          rw [salvage_prep_err hsem hsrc htgt hprep]
          constructor
          · simp [isRecordAct, failActs_any_false]
          · cases hn : o.notifierPresent <;> simp [failActs, hn, isRecordAct]
        | ok size =>
          rw [salvage_proceed hsem hsrc htgt hprep]
          by_cases hbig : 0 < o.maxImageSize ∧ o.maxImageSize < size
          · rw [if_pos hbig]
            constructor
            · simp [isRecordAct, failActs_any_false]
            · cases hn : o.notifierPresent <;> simp [failActs, hn, isRecordAct]
          · rw [if_neg hbig]
            cases himp : w.importFrom tgtEp digest srcEp with
            | error e =>
              constructor
              · simp [isRecordAct, failActs_any_false]
              · cases hn : o.notifierPresent <;> simp [failActs, hn, isRecordAct]
            | ok u =>
              constructor
              · simp [isRecordAct]
              · have hpt := pushTrace_all_true o w digest srcEp
                  (fun a => !(isRecordAct a) ||
                    (a == OrchAct.recordCreate (recordName pod.name digest) pod.name digest
                      imageRef ("Completed".toList) []))
                  (by intro a ha; simp [ha])
                cases hn : o.notifierPresent <;>
                  by_cases hbk : (o.backupRegistry == []) = true <;>
                  by_cases how : pod.ownerRefs.length > 0 <;>
                  simp [hn, hbk, how, isRecordAct, List.all_append] <;>
                  simpa [isRecordAct] using hpt

/-! ### C10: once ImportFrom succeeds, Salvage returns nil -/

/-- C10: after a successful ImportFrom, Salvage returns nil whatever happens
to the record creation, the backup push or the pod deletion; those outcomes
are only logged or emitted as events, so the caller cannot distinguish
them. -/
theorem c10_success_swallows_failures (o : Orchestrator) (w : AgentWorld) (pod : Pod)
    (digest imageRef sourceNode srcEp tgtEp : List Char) (size : Int)
    (hsem : w.semaphoreFull = false)
    (hsrc : w.endpointFor sourceNode = Except.ok srcEp)
    (htgt : w.endpointFor pod.nodeName = Except.ok tgtEp)
    (hprep : w.prepareExport srcEp digest = Except.ok size)
    (hsize : ¬(0 < o.maxImageSize ∧ o.maxImageSize < size))
    (himp : w.importFrom tgtEp digest srcEp = Except.ok ()) :
    (Salvage o w pod digest imageRef sourceNode).2 = none := by
  rw [salvage_proceed hsem hsrc htgt hprep]
  rw [if_neg hsize]
  simp only [himp]

/-- Witness for C10: the fixture world fails record creation, the backup
push and the pod deletion, yet Salvage returns nil. -/
theorem c10_witness :
    (Salvage baseOrch okWorld cexPodOpted digestA imageA ("node-1".toList)).2 = none ∧
    okWorld.recordCreateErr.isSome = true ∧
    okWorld.deleteErr.isSome = true :=
  ⟨c10_success_swallows_failures baseOrch okWorld cexPodOpted digestA imageA
      ("node-1".toList) (("node-1".toList) ++ (":9090".toList))
      (("node-2".toList) ++ (":9090".toList)) 5
      rfl rfl rfl rfl (by decide) rfl,
   rfl, rfl⟩

/-! ### C2: opt-in is checked on the pod only -/

/-- C2 counterexample: the namespace allows tote, the owning workload
carries auto-salvage=true and the pod has a detectable failure, yet the
reconciler returns having done nothing because the pod itself lacks the
annotation — the owner chain is never walked. -/
theorem c2_counterexample :
    namespaceOptedIn stateC2 ("default".toList) = true ∧
    lookupAnnot annotatedOwner.annots annotPodAutoSalvage = "true".toList ∧
    (Detect cexPodNoAnnot).length = 1 ∧
    Reconcile Config.new baseEnv stateC2 reqApp =
      ({ requeueAfter := none }, none, []) := by
  refine ⟨by decide, by decide, by decide, by decide⟩

/-- C2 (amended): the auto-salvage opt-in is satisfied only by the
annotation on the pod itself; a pod without it is skipped with no side
effects, and the owner workloads present in the cluster never influence the
result. -/
theorem c2_amended (cfg : Config) (env : ReconcilerEnv) (state : ClusterState)
    (req : ReconcileRequest) (pod : Pod)
    (hfind : state.pods.find? (fun p => p.name == req.name && p.ns == req.ns) = some pod)
    (hannot : ¬(lookupAnnot pod.annots annotPodAutoSalvage = "true".toList)) :
    (Reconcile cfg env state req).2.2 = [] ∧
    (∀ os, Reconcile cfg env { state with owners := os } req =
           Reconcile cfg env { state with owners := [] } req) := by
  constructor
  · have hannot2 : ¬(lookupAnnot pod.annots annotPodAutoSalvage =
        ['t', 'r', 'u', 'e']) := hannot
    simp only [Reconcile]
    cases hen : cfg.enabled with
    | false => simp
    | true =>
      by_cases hd : cfg.isDenied req.ns = true
      · simp [hd]
      · simp only [hd, hfind, Bool.not_true, Bool.false_eq_true, if_false]
        by_cases hns : namespaceOptedIn state pod.ns = true
        · simp [hns, hannot2]
        · simp [hns]
  · intro os
    rfl

/-- Witness for the amended C2 theorem at the concrete fixture. -/
theorem c2_witness :
    (Reconcile Config.new baseEnv stateC2 reqApp).2.2 = [] ∧
    (∀ os, Reconcile Config.new baseEnv { stateC2 with owners := os } reqApp =
           Reconcile Config.new baseEnv { stateC2 with owners := [] } reqApp) :=
  c2_amended Config.new baseEnv stateC2 reqApp cexPodNoAnnot (by decide) (by decide)

/-! ### C3: records are not consulted for idempotency -/

/-- C3 counterexample: a Completed SalvageRecord with the same digest exists
in the cluster, yet reconciling the failing pod again still issues the
salvage — the trace contains a PrepareExport call. -/
theorem c3_counterexample :
    recordExists stateC3.records digestA = true ∧
    ((Reconcile Config.new baseEnv stateC3 reqApp).2.2.any isPrepareAct) = true := by
  refine ⟨by decide, by decide⟩

/-- C3 (amended): the reconciler never reads SalvageRecords — its result is
unchanged by whatever records exist — and duplicate suppression instead uses
the pod's tote.dev/salvaged-digest annotation: when it equals the digest, no
salvage and hence no PrepareExport is issued for that failure. -/
theorem c3_amended :
    (∀ (cfg : Config) (env : ReconcilerEnv) (state : ClusterState)
       (req : ReconcileRequest) (rs : List SalvageRecord),
      Reconcile cfg env { state with records := rs } req =
        Reconcile cfg env { state with records := [] } req) ∧
    (∀ (env : ReconcilerEnv) (state : ClusterState) (pod : Pod) (f : Failure),
      f.corruptImage = false →
      (Resolve f.image).actionable = true →
      lookupAnnot pod.annots annotSalvagedDigest = (Resolve f.image).digest →
      (reconcileFailure env state pod f).any isPrepareAct = false) := by
  constructor
  · intro cfg env state req rs
    rfl
  · intro env state pod f hcor hact hannot
    simp only [reconcileFailure, hcor, Bool.false_eq_true, if_false, hact, if_true]
    have hskip : (lookupAnnot pod.annots annotSalvagedDigest ==
        (Resolve f.image).digest) = true := by
      simp [hannot]
    by_cases hnodes : (FindNodes state.nodes (Resolve f.image).digest).length > 0
    · by_cases horch : (env.orchestratorPresent && !(pod.nodeName == [])) = true
      · simp [hnodes, horch, hskip, isPrepareAct]
      · simp [hnodes, horch, isPrepareAct]
        intro x h1 h2 h3 hmem
        exact absurd hannot h3
    · simp [hnodes, isPrepareAct]

/-- Witness for the amended C3 theorem: record-independence applied at the
fixture state, and the annotation guard at a pod already marked salvaged. -/
theorem c3_witness :
    (Reconcile Config.new baseEnv { stateC3 with records := [recordForA] } reqApp =
      Reconcile Config.new baseEnv { stateC3 with records := [] } reqApp) ∧
    (reconcileFailure baseEnv stateC3 cexPodSalvaged failureA).any isPrepareAct = false :=
  ⟨c3_amended.1 Config.new baseEnv stateC3 reqApp [recordForA],
   c3_amended.2 baseEnv stateC3 cexPodSalvaged failureA (by decide) (by decide) (by decide)⟩

/-! ### C7: no requeue on salvage failure -/

/-- C7 counterexample: with the semaphore full the salvage fails with the
rate-limited error (a transient failure in the claim's taxonomy); the
reconciler still returns an empty result — no 30-second requeue — and no
error. -/
theorem c7_counterexample :
    (Salvage baseOrch fullWorld cexPodOpted digestA imageA ("node-1".toList)).2 =
      some rateLimitedMsg ∧
    ((Reconcile Config.new envFull stateC3 reqApp).2.2.any
        (fun a => a == OrchAct.metricAttempt)) = true ∧
    (Reconcile Config.new envFull stateC3 reqApp).1 = { requeueAfter := none } ∧
    (Reconcile Config.new envFull stateC3 reqApp).2.1 = none := by
  refine ⟨by decide, by decide, by decide, by decide⟩

/-- C7 (amended): whatever happens — including any salvage failure, which is
only logged — Reconcile always returns the empty result (no requeue) and a
nil error. -/
theorem c7_amended (cfg : Config) (env : ReconcilerEnv) (state : ClusterState)
    (req : ReconcileRequest) :
    (Reconcile cfg env state req).1 = { requeueAfter := none } ∧
    (Reconcile cfg env state req).2.1 = none := by
  constructor
  all_goals simp only [Reconcile]
  all_goals repeat' split
  all_goals rfl

/-- Witness for the amended C1 theorem at a concrete actionable reference. -/
theorem c1_amended_witness :
    (Resolve (['n', '@'] ++ shaMarker ++ List.replicate 64 'a')).actionable = true ∧
    ∃ a, (['n', '@'] ++ shaMarker ++ List.replicate 64 'a' : List Char) =
        a ++ '@' :: (Resolve (['n', '@'] ++ shaMarker ++ List.replicate 64 'a')).digest ∧
      shaMarker.isPrefixOf (Resolve (['n', '@'] ++ shaMarker ++ List.replicate 64 'a')).digest = true ∧
      (Resolve (['n', '@'] ++ shaMarker ++ List.replicate 64 'a')).digest.length = 71 := by
  refine ⟨by rfl, ?_⟩
  exact (c1_amended (['n', '@'] ++ shaMarker ++ List.replicate 64 'a')).2.2.1 (by rfl)

end Tote
